import Mathlib

/-
Verification of the NakalTrade repository bundle.

Two components are modelled:

1. The payment-retry request flow of the x402 demo.  The wrapper itself
   (wrapFetchWithPayment / decodeXPaymentResponse, imported from the external
   x402-fetch package in src/x402-demo/buyer.js) is not part of this
   repository, so it is modelled from the specification: request wrapping,
   402 handling, requirement selection, signing, the single retry with the
   authorization encoded into the designated request header, and the
   settlement-receipt header transport.

2. The frontend chat send handler handleSendMessage from
   src/frontend/src/app/page.tsx, embedded directly from the source.

The header transports are modelled as an executable delimiter-escaped
serialization with a real decoder, standing in for the base64/JSON transport
of the external middleware.
-/

/-! ## Field-level header serialization

Fields are separated by the delimiter bar character; a backslash escapes
both the delimiter and itself inside field content, so the serialization is
injective on arbitrary strings. -/

/-- Escape the delimiter and the escape character inside field content. -/
def escAux : List Char → List Char
  | [] => []
  | c :: cs => if c = '\\' ∨ c = '|' then '\\' :: c :: escAux cs else c :: escAux cs

/-- Read one field: unescape up to the first unescaped delimiter, returning
the field content and the remaining characters. -/
def unescSplit : List Char → List Char × List Char
  | [] => ([], [])
  | c :: cs =>
    if c = '\\' then
      match cs with
      | [] => ([], [])
      | d :: ds => ((unescSplit ds).1.cons d, (unescSplit ds).2)
    else if c = '|' then ([], cs)
    else ((unescSplit cs).1.cons c, (unescSplit cs).2)

theorem unescSplit_delim (l : List Char) : unescSplit ('|' :: l) = ([], l) := by
  rw [unescSplit.eq_def]; simp

theorem unescSplit_esc (c : Char) (l : List Char) :
    unescSplit ('\\' :: c :: l) = ((unescSplit l).1.cons c, (unescSplit l).2) := by
  rw [unescSplit.eq_def]; simp

theorem unescSplit_cons_raw (c : Char) (l : List Char) (h1 : c ≠ '\\') (h2 : c ≠ '|') :
    unescSplit (c :: l) = ((unescSplit l).1.cons c, (unescSplit l).2) := by
  rw [unescSplit.eq_def]; simp [h1, h2]

theorem unescSplit_escAux (s rest : List Char) :
    unescSplit (escAux s ++ '|' :: rest) = (s, rest) := by
  induction s with
  | nil => simpa [escAux] using unescSplit_delim rest
  | cons c cs ih =>
    by_cases h : c = '\\' ∨ c = '|'
    · simp only [escAux, if_pos h, List.cons_append, unescSplit_esc, ih]
    · push_neg at h
      simp only [escAux, if_neg (by tauto : ¬(c = '\\' ∨ c = '|')), List.cons_append,
        unescSplit_cons_raw c _ h.1 h.2, ih]

theorem unescSplit_raw (s rest : List Char) (h : ∀ c ∈ s, c ≠ '\\' ∧ c ≠ '|') :
    unescSplit (s ++ '|' :: rest) = (s, rest) := by
  induction s with
  | nil => simpa using unescSplit_delim rest
  | cons c cs ih =>
    have hc := h c (by simp)
    have ihh := ih (fun d hd => h d (by simp [hd]))
    simp only [List.cons_append, unescSplit_cons_raw c _ hc.1 hc.2, ihh]

/-! ## Decimal serialization of natural-number fields -/

/-- Decimal digit character for a value below ten. -/
def digitChar : Nat → Char
  | 0 => '0'
  | 1 => '1'
  | 2 => '2'
  | 3 => '3'
  | 4 => '4'
  | 5 => '5'
  | 6 => '6'
  | 7 => '7'
  | 8 => '8'
  | _ => '9'

/-- Numeric value of a decimal digit character. -/
def digitVal (c : Char) : Nat := c.toNat - 48

/-- Most-significant-first decimal digits, with fuel for structural recursion. -/
def natCharsGo : Nat → Nat → List Char
  | 0, _ => []
  | fuel + 1, n =>
    if n < 10 then [digitChar n] else natCharsGo fuel (n / 10) ++ [digitChar (n % 10)]

/-- Decimal representation of a natural number as characters. -/
def natChars (n : Nat) : List Char := natCharsGo (n + 1) n

theorem digitChar_spec (m : Nat) (hm : m < 10) :
    (digitChar m).isDigit = true ∧ digitVal (digitChar m) = m ∧
      digitChar m ≠ '\\' ∧ digitChar m ≠ '|' := by
  interval_cases m <;> refine ⟨by decide, by decide, by decide, by decide⟩

theorem natCharsGo_digits (fuel n : Nat) :
    ∀ c ∈ natCharsGo fuel n, c.isDigit = true := by
  induction fuel generalizing n with
  | zero => simp [natCharsGo]
  | succ fuel ih =>
    intro c hc
    rw [natCharsGo] at hc
    by_cases h : n < 10
    · rw [if_pos h] at hc
      simp at hc
      exact hc ▸ (digitChar_spec n h).1
    · rw [if_neg h] at hc
      rcases List.mem_append.mp hc with h1 | h2
      · exact ih (n / 10) c h1
      · have hc2 : c = digitChar (n % 10) := by simpa using h2
        exact hc2 ▸ (digitChar_spec (n % 10) (Nat.mod_lt _ (by omega))).1

theorem natCharsGo_foldl (fuel : Nat) :
    ∀ n acc, n < fuel →
      (natCharsGo fuel n).foldl (fun a c => a * 10 + digitVal c) acc =
        acc * 10 ^ (natCharsGo fuel n).length + n := by
  induction fuel with
  | zero => omega
  | succ fuel ih =>
    intro n acc hn
    rw [natCharsGo]
    by_cases h : n < 10
    · rw [if_pos h]
      simp [List.foldl, (digitChar_spec n h).2.1]
    · rw [if_neg h]
      have hdiv : n / 10 < fuel := by
        have h1 : n / 10 < n := Nat.div_lt_self (by omega) (by omega)
        omega
      rw [List.foldl_append, ih (n / 10) acc hdiv]
      simp only [List.foldl, List.length_append, List.length_singleton]
      rw [(digitChar_spec (n % 10) (Nat.mod_lt _ (by omega))).2.1]
      have hmod : n = 10 * (n / 10) + n % 10 := (Nat.div_add_mod n 10).symm
      rw [pow_succ]
      ring_nf
      omega

theorem natChars_ne_nil (n : Nat) : natChars n ≠ [] := by
  rw [natChars, natCharsGo]
  by_cases h : n < 10
  · rw [if_pos h]; simp
  · rw [if_neg h]; simp

/-- Parse a delimited field as a decimal natural number. -/
def decNatField (f : List Char) : Option Nat :=
  if f ≠ [] ∧ f.all Char.isDigit = true then
    some (f.foldl (fun a c => a * 10 + digitVal c) 0)
  else none

theorem decNatField_natChars (n : Nat) : decNatField (natChars n) = some n := by
  rw [decNatField, if_pos]
  · rw [natChars, natCharsGo_foldl (n + 1) n 0 (Nat.lt_succ_self n)]
    simp
  · exact ⟨natChars_ne_nil n, List.all_eq_true.mpr (fun c hc => natCharsGo_digits (n + 1) n c hc)⟩

theorem natChars_raw (n : Nat) : ∀ c ∈ natChars n, c ≠ '\\' ∧ c ≠ '|' := by
  intro c hc
  have hd := natCharsGo_digits (n + 1) n c hc
  constructor <;> rintro rfl <;> simp [Char.isDigit] at hd

theorem unescSplit_natChars (n : Nat) (rest : List Char) :
    unescSplit (natChars n ++ '|' :: rest) = (natChars n, rest) :=
  unescSplit_raw (natChars n) rest (natChars_raw n)

/-! ## Data model

Modelled from the spec: the three entities of the payment flow (section 3 of
the spec), with the amount in atomic units and the nonce and expiry as
natural numbers. -/

/-- Modelled from the spec: terms a resource server demands before granting
access (amount, asset identifier, destination address, network identifier,
scheme, nonce and expiry).  The external middleware parses these from the
402 response body; this repository only configures them in seller.js. -/
structure PaymentRequirement where
  scheme : String
  network : String
  amount : Nat
  asset : String
  payTo : String
  nonce : Nat
  expiry : Nat
deriving DecidableEq

/-- Modelled from the spec: signed proof of payment intent, bound to one
PaymentRequirement (same nonce, amount and destination).  Produced by the
wallet capability; the signature bytes are kept as an opaque hex string. -/
structure PaymentAuthorization where
  signer : String
  amount : Nat
  destination : String
  nonce : Nat
  expiry : Nat
  sigBytes : String
deriving DecidableEq

/-- Modelled from the spec: the facilitator confirmation of on-chain
settlement, surfaced to the caller through a response header. -/
structure SettlementReceipt where
  success : Bool
  txHash : String
  network : String
  errorDetail : Option String
deriving DecidableEq

/-! ## The designated request-header transport for PaymentAuthorization -/

/-- Modelled from the spec: encode a PaymentAuthorization into the value of
the designated request header, one delimited field per attribute. -/
def encodePaymentAuthChars (a : PaymentAuthorization) : List Char :=
  escAux a.signer.data ++ '|' :: (natChars a.amount ++ '|' :: (escAux a.destination.data ++
    '|' :: (natChars a.nonce ++ '|' :: (natChars a.expiry ++ '|' ::
      (escAux a.sigBytes.data ++ ['|'])))))

/-- String form of the encoded PaymentAuthorization header value. -/
def encodePaymentAuth (a : PaymentAuthorization) : String :=
  String.mk (encodePaymentAuthChars a)

/-- Modelled from the spec: decode the designated request header back into a
PaymentAuthorization, rejecting malformed values. -/
def decodePaymentAuthChars (l : List Char) : Option PaymentAuthorization :=
  match unescSplit l with
  | (f1, r1) =>
    match unescSplit r1 with
    | (f2, r2) =>
      match unescSplit r2 with
      | (f3, r3) =>
        match unescSplit r3 with
        | (f4, r4) =>
          match unescSplit r4 with
          | (f5, r5) =>
            match unescSplit r5 with
            | (f6, r6) =>
              if r6 = [] then
                match decNatField f2, decNatField f4, decNatField f5 with
                | some amount, some nonce, some expiry =>
                  some { signer := String.mk f1, amount := amount,
                         destination := String.mk f3, nonce := nonce, expiry := expiry,
                         sigBytes := String.mk f6 }
                | _, _, _ => none
              else none

/-- Decode the designated request header from its string form. -/
def decodePaymentAuth (s : String) : Option PaymentAuthorization :=
  decodePaymentAuthChars s.data

theorem decodePaymentAuth_encode (a : PaymentAuthorization) :
    decodePaymentAuth (encodePaymentAuth a) = some a := by
  show decodePaymentAuthChars (encodePaymentAuthChars a) = some a
  have h6 : unescSplit (escAux a.sigBytes.data ++ ['|']) = (a.sigBytes.data, []) := by
    simpa using unescSplit_escAux a.sigBytes.data []
  rw [decodePaymentAuthChars, encodePaymentAuthChars]
  simp only [unescSplit_escAux, unescSplit_natChars, h6, decNatField_natChars]
  rfl

/-! ## The designated response-header transport for SettlementReceipt -/

/-- Success flag encoded as a one-character field. -/
def encBoolChars (b : Bool) : List Char := if b then ['1'] else ['0']

/-- Parse a one-character success-flag field. -/
def decBoolField (f : List Char) : Option Bool :=
  if f = ['1'] then some true else if f = ['0'] then some false else none

/-- Optional error detail encoded with a one-character tag. -/
def encOptStrChars : Option String → List Char
  | none => ['N']
  | some s => 'S' :: escAux s.data

/-- Parse a tagged optional error-detail field. -/
def decOptStrField : List Char → Option (Option String)
  | [] => none
  | c :: cs =>
    if c = 'N' ∧ cs = [] then some none
    else if c = 'S' then some (some (String.mk cs))
    else none

/-- Modelled from the spec: encode a SettlementReceipt into the value of the
designated response header (seller side of the x-payment-response header). -/
def encodeXPaymentResponseChars (r : SettlementReceipt) : List Char :=
  encBoolChars r.success ++ '|' :: (escAux r.txHash.data ++ '|' :: (escAux r.network.data ++
    '|' :: (encOptStrChars r.errorDetail ++ ['|'])))

/-- String form of the encoded SettlementReceipt header value. -/
def encodeXPaymentResponse (r : SettlementReceipt) : String :=
  String.mk (encodeXPaymentResponseChars r)

/-- Modelled from the spec: decode the designated response header into a
SettlementReceipt, as buyer.js does through the external
decodeXPaymentResponse import. -/
def decodeXPaymentResponseChars (l : List Char) : Option SettlementReceipt :=
  match unescSplit l with
  | (f1, r1) =>
    match unescSplit r1 with
    | (f2, r2) =>
      match unescSplit r2 with
      | (f3, r3) =>
        match unescSplit r3 with
        | (f4, r4) =>
          if r4 = [] then
            match decBoolField f1, decOptStrField f4 with
            | some success, some detail =>
              some { success := success, txHash := String.mk f2, network := String.mk f3,
                     errorDetail := detail }
            | _, _ => none
          else none

/-- Decode the designated response header from its string form. -/
def decodeXPaymentResponse (s : String) : Option SettlementReceipt :=
  decodeXPaymentResponseChars s.data

theorem unescSplit_encBool (b : Bool) (rest : List Char) :
    unescSplit (encBoolChars b ++ '|' :: rest) = (encBoolChars b, rest) := by
  cases b <;> exact unescSplit_raw _ rest (by decide)

theorem decBoolField_encBool (b : Bool) : decBoolField (encBoolChars b) = some b := by
  cases b <;> rfl

theorem unescSplit_encOptStr (d : Option String) (rest : List Char) :
    ∃ f, unescSplit (encOptStrChars d ++ '|' :: rest) = (f, rest) ∧
      decOptStrField f = some d := by
  cases d with
  | none => exact ⟨['N'], unescSplit_raw _ rest (by decide), rfl⟩
  | some s =>
    refine ⟨'S' :: s.data, ?_, ?_⟩
    · show unescSplit ('S' :: (escAux s.data ++ '|' :: rest)) = _
      rw [unescSplit_cons_raw 'S' _ (by decide) (by decide), unescSplit_escAux]
    · show decOptStrField ('S' :: s.data) = some (some s)
      rw [decOptStrField]
      rw [if_neg (by simp), if_pos rfl]

theorem decodeXPaymentResponse_encode (r : SettlementReceipt) :
    decodeXPaymentResponse (encodeXPaymentResponse r) = some r := by
  show decodeXPaymentResponseChars (encodeXPaymentResponseChars r) = some r
  obtain ⟨f4, hf4, hdec4⟩ := unescSplit_encOptStr r.errorDetail []
  have h4 : unescSplit (encOptStrChars r.errorDetail ++ ['|']) = (f4, []) := by
    simpa using hf4
  rw [decodeXPaymentResponseChars, encodeXPaymentResponseChars]
  simp only [unescSplit_encBool, unescSplit_escAux, h4, decBoolField_encBool, hdec4]
  rfl

/-! ## The payment-aware request wrapper

Modelled from the spec (section 4.1): the wrapper is configured with a
signing capability and a set of supported scheme/network pairs, issues the
original request, and on a payment-required status selects one supported
requirement, signs it, and retries once with the authorization attached.
The transport argument stands for the network; the list of issued requests
is returned alongside the result so that call counts are observable. -/

/-- Outbound HTTP request as the wrapper sees it: target, method, and the
optional designated payment header. -/
structure HttpRequest where
  url : String
  method : String
  paymentHeader : Option String
deriving DecidableEq

/-- HTTP response as the wrapper sees it.  The requirements field is the
parse of a 402 body as a PaymentRequirement set; none models a malformed
body.  The receiptHeader field carries the optional settlement header. -/
structure HttpResponse where
  status : Nat
  requirements : Option (List PaymentRequirement)
  receiptHeader : Option String
  body : String
deriving DecidableEq

/-- Modelled from the spec: the failure taxonomy of the wrapper (section 7).
Transport errors are outside the model because the transport is total. -/
inductive WrapperFailure where
  | UnsupportedPaymentScheme : WrapperFailure
  | MalformedPaymentRequirements : HttpResponse → WrapperFailure
  | SigningRejected : WrapperFailure
  | PaymentRetryExhausted : WrapperFailure
deriving DecidableEq

/-- Modelled from the spec: wrapper configuration — the signer address, the
supported scheme/network pairs, and the black-box signing capability that
returns signature bytes for a requirement, or none when the holder declines
or the capability errors. -/
structure WrapperConfig where
  signer : String
  supported : List (String × String)
  sign : PaymentRequirement → Option String

/-- A requirement is supported when its scheme/network pair is configured. -/
def isSupported (cfg : WrapperConfig) (r : PaymentRequirement) : Bool :=
  cfg.supported.contains (r.scheme, r.network)

/-- Modelled from the spec: pick exactly one compatible entry, first match
wins (section 9 of the spec). -/
def selectPaymentRequirement (cfg : WrapperConfig) (reqs : List PaymentRequirement) :
    Option PaymentRequirement :=
  reqs.find? (isSupported cfg)

/-- Modelled from the spec: the authorization produced for a selected
requirement — bound to the same amount, destination, nonce and expiry, and
carrying the signature returned by the capability. -/
def mkPaymentAuthorization (cfg : WrapperConfig) (r : PaymentRequirement) (sig : String) :
    PaymentAuthorization :=
  { signer := cfg.signer, amount := r.amount, destination := r.payTo,
    nonce := r.nonce, expiry := r.expiry, sigBytes := sig }

/-- Reissue of the original request with the authorization encoded into the
designated request header. -/
def retryRequest (req : HttpRequest) (a : PaymentAuthorization) : HttpRequest :=
  { req with paymentHeader := some (encodePaymentAuth a) }

/-- Modelled from the spec: the payment-aware request wrapper (steps 1 to 6
of section 4.1).  Returns the result together with the list of requests
issued to the transport, in order. -/
def wrapFetchWithPayment (cfg : WrapperConfig) (transport : HttpRequest → HttpResponse)
    (req : HttpRequest) : Except WrapperFailure HttpResponse × List HttpRequest :=
  if (transport req).status ≠ 402 then (Except.ok (transport req), [req])
  else
    match (transport req).requirements with
    | none => (Except.error (WrapperFailure.MalformedPaymentRequirements (transport req)), [req])
    | some reqs =>
      match selectPaymentRequirement cfg reqs with
      | none => (Except.error WrapperFailure.UnsupportedPaymentScheme, [req])
      | some sel =>
        match cfg.sign sel with
        | none => (Except.error WrapperFailure.SigningRejected, [req])
        | some sig =>
          if (transport (retryRequest req (mkPaymentAuthorization cfg sel sig))).status = 402 then
            (Except.error WrapperFailure.PaymentRetryExhausted,
              [req, retryRequest req (mkPaymentAuthorization cfg sel sig)])
          else
            (Except.ok (transport (retryRequest req (mkPaymentAuthorization cfg sel sig))),
              [req, retryRequest req (mkPaymentAuthorization cfg sel sig)])

theorem find?_eq_head?_filter {α : Type} (p : α → Bool) (l : List α) :
    l.find? p = (l.filter p).head? := by
  induction l with
  | nil => rfl
  | cons a l ih =>
    by_cases h : p a
    · rw [List.find?_cons_of_pos _ h, List.filter_cons_of_pos h]
      rfl
    · rw [List.find?_cons_of_neg _ (by simpa using h), List.filter_cons_of_neg (by simpa using h),
        ih]

theorem select_of_filter_singleton (cfg : WrapperConfig) (reqs : List PaymentRequirement)
    (r : PaymentRequirement) (h : reqs.filter (isSupported cfg) = [r]) :
    selectPaymentRequirement cfg reqs = some r := by
  rw [selectPaymentRequirement, find?_eq_head?_filter, h]
  rfl

theorem select_of_filter_nil (cfg : WrapperConfig) (reqs : List PaymentRequirement)
    (h : reqs.filter (isSupported cfg) = []) :
    selectPaymentRequirement cfg reqs = none := by
  rw [selectPaymentRequirement, find?_eq_head?_filter, h]
  rfl

theorem wrapFetch_trace_shape (cfg : WrapperConfig) (transport : HttpRequest → HttpResponse)
    (req : HttpRequest) :
    (wrapFetchWithPayment cfg transport req).2 = [req] ∨
      ∃ q2, (wrapFetchWithPayment cfg transport req).2 = [req, q2] := by
  rw [wrapFetchWithPayment]
  by_cases h1 : (transport req).status ≠ 402
  · rw [if_pos h1]
    left; rfl
  · rw [if_neg h1]
    cases (transport req).requirements with
    | none => left; rfl
    | some reqs =>
      dsimp only
      cases selectPaymentRequirement cfg reqs with
      | none => left; rfl
      | some sel =>
        dsimp only
        cases cfg.sign sel with
        | none => left; rfl
        | some sig =>
          dsimp only
          by_cases h2 :
            (transport (retryRequest req (mkPaymentAuthorization cfg sel sig))).status = 402
          · rw [if_pos h2]
            exact Or.inr ⟨_, rfl⟩
          · rw [if_neg h2]
            exact Or.inr ⟨_, rfl⟩

/-! ## Frontend chat send handler

Embedded from src/frontend/src/app/page.tsx.  React state (messages, input,
isTyping) is made explicit; the fetch call is a parameter returning either a
network error or a response with its ok flag and the response field of the
parsed JSON body.  The handler returns the final state together with the
list of HTTP requests it issued. -/

/-- Chat bubble, from the Message type of page.tsx. -/
structure Message where
  content : String
  isUser : Bool
  agentName : Option String
deriving DecidableEq

/-- The component state handleSendMessage reads and writes. -/
structure ChatState where
  messages : List Message
  input : String
  isTyping : Bool
deriving DecidableEq

/-- Outcome of the fetch call: a transport failure, or a response carrying
the ok flag and the response field of the JSON body. -/
inductive FetchOutcome where
  | netError : FetchOutcome
  | reply : Bool → String → FetchOutcome
deriving DecidableEq

/-- HTTP request issued by the chat client: target, method, content type and
the message field of the JSON body. -/
structure ChatRequest where
  url : String
  method : String
  contentType : String
  message : String
deriving DecidableEq

/-- The API_URL constant of page.tsx. -/
def API_URL : String := "http://localhost:8100/chat"

/-- The fixed connection-error bubble text of page.tsx. -/
def connectionErrorText : String :=
  "⚠️ Could not connect to the NakalTrade agent. Please ensure it is running."

/-- Whitespace trim over the character list, mirroring the trim call of
page.tsx (String.trim of Lean does not reduce in the kernel). -/
def trimChars (l : List Char) : List Char :=
  ((l.dropWhile Char.isWhitespace).reverse.dropWhile Char.isWhitespace).reverse

/-- String form of the whitespace trim. -/
def jsTrim (s : String) : String := String.mk (trimChars s.data)

/-- The single request the handler builds for a given input string. -/
def chatRequestFor (message : String) : ChatRequest :=
  { url := API_URL, method := "POST", contentType := "application/json", message := message }

/-- Embedded from handleSendMessage of page.tsx: guard on trimmed-empty
input, append the user bubble, clear the input, issue the POST, append the
agent bubble (the response text when the request succeeded and was ok, the
fixed connection-error text otherwise), and reset isTyping in the finally
block.  The intermediate isTyping true phase is collapsed into the final
state. -/
def handleSendMessage (fetchChat : ChatRequest → FetchOutcome) (st : ChatState) :
    ChatState × List ChatRequest :=
  if jsTrim st.input = "" then (st, [])
  else
    ({ messages :=
         st.messages ++
           [{ content := st.input, isUser := true, agentName := none },
            match fetchChat (chatRequestFor st.input) with
            | FetchOutcome.reply true text =>
                { content := text, isUser := false, agentName := some "NakalTrade" }
            | _ =>
                { content := connectionErrorText, isUser := false,
                  agentName := some "NakalTrade" }],
       input := "", isTyping := false },
     [chatRequestFor st.input])

theorem trimChars_of_all_whitespace (l : List Char) (h : l.all Char.isWhitespace = true) :
    trimChars l = [] := by
  have h1 : l.dropWhile Char.isWhitespace = [] :=
    List.dropWhile_eq_nil_iff.mpr (fun x hx => List.all_eq_true.mp h x hx)
  rw [trimChars, h1]
  rfl

/-! ## Concrete fixtures for witnesses and counterexamples

These mirror the demo data of seller.js: the weather route priced at one
tenth of a cent in USDC on polygon-amoy, paid to the configured receiving
address. -/

/-- The single requirement the demo seller advertises. -/
def demoRequirement : PaymentRequirement where
  scheme := "exact"
  network := "polygon-amoy"
  amount := 1000
  asset := "0x41E94Eb019C0762f9Bfcf9Fb1E58725BfB0e7582"
  payTo := "0xdB772823f62c009E6EC805BC57A4aFc7B2701F1F"
  nonce := 12345
  expiry := 1700000000

/-- Buyer configuration whose wallet signs every requirement. -/
def demoConfig : WrapperConfig where
  signer := "0xBuyerAddress"
  supported := [("exact", "polygon-amoy")]
  sign := fun _ => some "0xdeadbeefsig"

/-- Buyer configuration whose wallet declines every signing request. -/
def decliningConfig : WrapperConfig where
  signer := "0xBuyerAddress"
  supported := [("exact", "polygon-amoy")]
  sign := fun _ => none

/-- The GET weather request of buyer.js, before any payment header. -/
def weatherRequest : HttpRequest where
  url := "http://127.0.0.1:4021/weather"
  method := "GET"
  paymentHeader := none

/-- Successful weather response of seller.js. -/
def weatherOkResponse : HttpResponse where
  status := 200
  requirements := none
  receiptHeader := none
  body := "sunny, 70"

/-- Payment-required response advertising the demo requirement. -/
def paymentRequiredResponse : HttpResponse where
  status := 402
  requirements := some [demoRequirement]
  receiptHeader := none
  body := ""

/-- Payment-required response whose requirement list is empty. -/
def noTermsResponse : HttpResponse where
  status := 402
  requirements := some []
  receiptHeader := none
  body := ""

/-- Transport of an unpaid resource: success immediately. -/
def freeTransport : HttpRequest → HttpResponse := fun _ => weatherOkResponse

/-- Transport that demands payment once and then serves the resource. -/
def payOnceTransport : HttpRequest → HttpResponse := fun q =>
  match q.paymentHeader with
  | none => paymentRequiredResponse
  | some _ => weatherOkResponse

/-- Transport that demands payment on every request. -/
def alwaysPayTransport : HttpRequest → HttpResponse := fun _ => paymentRequiredResponse

/-- Transport whose 402 advertises an empty requirement list. -/
def noTermsTransport : HttpRequest → HttpResponse := fun _ => noTermsResponse

/-- Chat state with a typical query in the input field. -/
def sampleChatState : ChatState where
  messages := []
  input := "analyze 0xabc on eth"
  isTyping := false

/-- Chat state whose input is whitespace only. -/
def blankChatState : ChatState where
  messages := []
  input := "   "
  isTyping := false

/-- Chat state whose input is a single space: a non-empty string that the
guard of the handler still rejects. -/
def spaceChatState : ChatState where
  messages := []
  input := " "
  isTyping := false

/-- Backend stub that answers every chat request successfully. -/
def okChatFetch : ChatRequest → FetchOutcome :=
  fun _ => FetchOutcome.reply true "Here is the analysis."

/-! ## Claims -/

/-- C2: for every request whose first response is not a payment-required
status, the wrapper issues exactly one network call and returns that first
response to the caller unchanged. -/
theorem wrapFetch_passthrough (cfg : WrapperConfig) (transport : HttpRequest → HttpResponse)
    (req : HttpRequest) (h : (transport req).status ≠ 402) :
    wrapFetchWithPayment cfg transport req = (Except.ok (transport req), [req]) := by
  rw [wrapFetchWithPayment, if_pos h]

theorem wrapFetch_passthrough_witness :
    (freeTransport weatherRequest).status ≠ 402 ∧
    wrapFetchWithPayment demoConfig freeTransport weatherRequest =
      (Except.ok (freeTransport weatherRequest), [weatherRequest]) :=
  ⟨by decide, wrapFetch_passthrough demoConfig freeTransport weatherRequest (by decide)⟩

/-- C1: for every request whose first response has status 402 with exactly
one supported PaymentRequirement entry, and whose signing capability
produces a signature for it, the wrapper issues exactly two network calls,
and the payment header attached to the second request decodes to a
PaymentAuthorization whose amount, destination and nonce equal those of the
advertised requirement. -/
theorem wrapFetch_two_calls_matching_header
    (cfg : WrapperConfig) (transport : HttpRequest → HttpResponse) (req : HttpRequest)
    (reqs : List PaymentRequirement) (r : PaymentRequirement) (sig : String)
    (h402 : (transport req).status = 402)
    (hreqs : (transport req).requirements = some reqs)
    (hone : reqs.filter (isSupported cfg) = [r])
    (hsig : cfg.sign r = some sig) :
    (wrapFetchWithPayment cfg transport req).2.length = 2 ∧
    ∃ q2 s a, (wrapFetchWithPayment cfg transport req).2 = [req, q2] ∧
      q2.paymentHeader = some s ∧ decodePaymentAuth s = some a ∧
      a.amount = r.amount ∧ a.destination = r.payTo ∧ a.nonce = r.nonce := by
  have hsel := select_of_filter_singleton cfg reqs r hone
  have htr : (wrapFetchWithPayment cfg transport req).2 =
      [req, retryRequest req (mkPaymentAuthorization cfg r sig)] := by
    rw [wrapFetchWithPayment, if_neg (by simp [h402]), hreqs]
    dsimp only
    rw [hsel]
    dsimp only
    rw [hsig]
    dsimp only
    by_cases h2 : (transport (retryRequest req (mkPaymentAuthorization cfg r sig))).status = 402
    · rw [if_pos h2]
    · rw [if_neg h2]
  refine ⟨by rw [htr]; rfl, retryRequest req (mkPaymentAuthorization cfg r sig),
    encodePaymentAuth (mkPaymentAuthorization cfg r sig), mkPaymentAuthorization cfg r sig,
    htr, rfl, decodePaymentAuth_encode _, rfl, rfl, rfl⟩

theorem wrapFetch_two_calls_matching_header_witness :
    (payOnceTransport weatherRequest).status = 402 ∧
    (payOnceTransport weatherRequest).requirements = some [demoRequirement] ∧
    [demoRequirement].filter (isSupported demoConfig) = [demoRequirement] ∧
    demoConfig.sign demoRequirement = some "0xdeadbeefsig" ∧
    ((wrapFetchWithPayment demoConfig payOnceTransport weatherRequest).2.length = 2 ∧
     ∃ q2 s a, (wrapFetchWithPayment demoConfig payOnceTransport weatherRequest).2 =
         [weatherRequest, q2] ∧
       q2.paymentHeader = some s ∧ decodePaymentAuth s = some a ∧
       a.amount = demoRequirement.amount ∧ a.destination = demoRequirement.payTo ∧
       a.nonce = demoRequirement.nonce) :=
  ⟨by decide, by decide, by decide, by decide,
    wrapFetch_two_calls_matching_header demoConfig payOnceTransport weatherRequest
      [demoRequirement] demoRequirement "0xdeadbeefsig" (by decide) (by decide) (by decide)
      (by decide)⟩

/-- C3: for every invocation in which the retried request again returns a
payment-required status, the wrapper fails with PaymentRetryExhausted, and
in no execution does the wrapper issue more than two network calls. -/
theorem wrapFetch_retry_exhausted
    (cfg : WrapperConfig) (transport : HttpRequest → HttpResponse) (req : HttpRequest)
    (reqs : List PaymentRequirement) (r : PaymentRequirement) (sig : String)
    (h402 : (transport req).status = 402)
    (hreqs : (transport req).requirements = some reqs)
    (hsel : selectPaymentRequirement cfg reqs = some r)
    (hsig : cfg.sign r = some sig)
    (h402b : (transport (retryRequest req (mkPaymentAuthorization cfg r sig))).status = 402) :
    (wrapFetchWithPayment cfg transport req).1 =
      Except.error WrapperFailure.PaymentRetryExhausted ∧
    (wrapFetchWithPayment cfg transport req).2.length = 2 ∧
    ∀ (cfg2 : WrapperConfig) (transport2 : HttpRequest → HttpResponse) (q : HttpRequest),
      (wrapFetchWithPayment cfg2 transport2 q).2.length ≤ 2 := by
  have hw : wrapFetchWithPayment cfg transport req =
      (Except.error WrapperFailure.PaymentRetryExhausted,
        [req, retryRequest req (mkPaymentAuthorization cfg r sig)]) := by
    rw [wrapFetchWithPayment, if_neg (by simp [h402]), hreqs]
    dsimp only
    rw [hsel]
    dsimp only
    rw [hsig]
    dsimp only
    rw [if_pos h402b]
  refine ⟨by rw [hw], by rw [hw]; rfl, ?_⟩
  intro cfg2 transport2 q
  rcases wrapFetch_trace_shape cfg2 transport2 q with h | ⟨q2, h⟩ <;> simp [h]

theorem wrapFetch_retry_exhausted_witness :
    (alwaysPayTransport weatherRequest).status = 402 ∧
    (alwaysPayTransport weatherRequest).requirements = some [demoRequirement] ∧
    selectPaymentRequirement demoConfig [demoRequirement] = some demoRequirement ∧
    demoConfig.sign demoRequirement = some "0xdeadbeefsig" ∧
    (alwaysPayTransport (retryRequest weatherRequest
      (mkPaymentAuthorization demoConfig demoRequirement "0xdeadbeefsig"))).status = 402 ∧
    ((wrapFetchWithPayment demoConfig alwaysPayTransport weatherRequest).1 =
       Except.error WrapperFailure.PaymentRetryExhausted ∧
     (wrapFetchWithPayment demoConfig alwaysPayTransport weatherRequest).2.length = 2 ∧
     ∀ (cfg2 : WrapperConfig) (transport2 : HttpRequest → HttpResponse) (q : HttpRequest),
       (wrapFetchWithPayment cfg2 transport2 q).2.length ≤ 2) :=
  ⟨by decide, by decide, by decide, by decide, by decide,
    wrapFetch_retry_exhausted demoConfig alwaysPayTransport weatherRequest
      [demoRequirement] demoRequirement "0xdeadbeefsig" (by decide) (by decide) (by decide)
      (by decide) (by decide)⟩

/-- C4: for every payment-required response whose PaymentRequirement set has
zero entries matching a supported scheme/network pair (the empty set
included), the wrapper fails with UnsupportedPaymentScheme and issues no
second request. -/
theorem wrapFetch_unsupported_scheme
    (cfg : WrapperConfig) (transport : HttpRequest → HttpResponse) (req : HttpRequest)
    (reqs : List PaymentRequirement)
    (h402 : (transport req).status = 402)
    (hreqs : (transport req).requirements = some reqs)
    (hzero : reqs.filter (isSupported cfg) = []) :
    wrapFetchWithPayment cfg transport req =
      (Except.error WrapperFailure.UnsupportedPaymentScheme, [req]) := by
  have hsel := select_of_filter_nil cfg reqs hzero
  rw [wrapFetchWithPayment, if_neg (by simp [h402]), hreqs]
  dsimp only
  rw [hsel]

theorem wrapFetch_unsupported_scheme_witness :
    (noTermsTransport weatherRequest).status = 402 ∧
    (noTermsTransport weatherRequest).requirements = some [] ∧
    List.filter (isSupported demoConfig) [] = [] ∧
    wrapFetchWithPayment demoConfig noTermsTransport weatherRequest =
      (Except.error WrapperFailure.UnsupportedPaymentScheme, [weatherRequest]) :=
  ⟨by decide, by decide, by decide,
    wrapFetch_unsupported_scheme demoConfig noTermsTransport weatherRequest []
      (by decide) (by decide) (by decide)⟩

/-- C5: for every invocation in which the signing capability declines or
errors on the selected PaymentRequirement, the wrapper fails with
SigningRejected and issues no second request. -/
theorem wrapFetch_signing_rejected
    (cfg : WrapperConfig) (transport : HttpRequest → HttpResponse) (req : HttpRequest)
    (reqs : List PaymentRequirement) (r : PaymentRequirement)
    (h402 : (transport req).status = 402)
    (hreqs : (transport req).requirements = some reqs)
    (hsel : selectPaymentRequirement cfg reqs = some r)
    (hsig : cfg.sign r = none) :
    wrapFetchWithPayment cfg transport req =
      (Except.error WrapperFailure.SigningRejected, [req]) := by
  rw [wrapFetchWithPayment, if_neg (by simp [h402]), hreqs]
  dsimp only
  rw [hsel]
  dsimp only
  rw [hsig]

theorem wrapFetch_signing_rejected_witness :
    (alwaysPayTransport weatherRequest).status = 402 ∧
    (alwaysPayTransport weatherRequest).requirements = some [demoRequirement] ∧
    selectPaymentRequirement decliningConfig [demoRequirement] = some demoRequirement ∧
    decliningConfig.sign demoRequirement = none ∧
    wrapFetchWithPayment decliningConfig alwaysPayTransport weatherRequest =
      (Except.error WrapperFailure.SigningRejected, [weatherRequest]) :=
  ⟨by decide, by decide, by decide, by decide,
    wrapFetch_signing_rejected decliningConfig alwaysPayTransport weatherRequest
      [demoRequirement] demoRequirement (by decide) (by decide) (by decide) (by decide)⟩

/-- C6: encoding a SettlementReceipt into the designated response-header
transport and decoding it back yields a receipt with the same success flag
and transaction hash. -/
theorem settlementReceipt_roundtrip (r : SettlementReceipt) :
    ∃ r2 : SettlementReceipt,
      decodeXPaymentResponse (encodeXPaymentResponse r) = some r2 ∧
      r2.success = r.success ∧ r2.txHash = r.txHash :=
  ⟨r, decodeXPaymentResponse_encode r, rfl, rfl⟩

/-- C7 counterexample: the invocation against an unpaid resource issues
exactly one network call, so the number of calls is neither zero nor two. -/
theorem wrapFetch_zero_or_two_calls_cex :
    ¬((wrapFetchWithPayment demoConfig freeTransport weatherRequest).2.length = 0 ∨
      (wrapFetchWithPayment demoConfig freeTransport weatherRequest).2.length = 2) := by
  decide

/-- C7 amended: every invocation of the wrapper performs exactly one or two
network calls: one when the flow stops before the retry (unpaid resource or
a pre-retry failure), two when the payment retry is issued. -/
theorem wrapFetch_one_or_two_calls
    (cfg : WrapperConfig) (transport : HttpRequest → HttpResponse) (req : HttpRequest) :
    (wrapFetchWithPayment cfg transport req).2.length = 1 ∨
    (wrapFetchWithPayment cfg transport req).2.length = 2 := by
  rcases wrapFetch_trace_shape cfg transport req with h | ⟨q2, h⟩
  · left; rw [h]; rfl
  · right; rw [h]; rfl

/-- C8: every request the chat send handler issues goes to the chat endpoint
via POST with a JSON body whose message field is the input, and at most one
request is issued per invocation. -/
theorem chat_post_contract (fetchChat : ChatRequest → FetchOutcome) (st : ChatState)
    (r : ChatRequest) (hr : r ∈ (handleSendMessage fetchChat st).2) :
    r.url = API_URL ∧ r.method = "POST" ∧ r.contentType = "application/json" ∧
    r.message = st.input ∧ (handleSendMessage fetchChat st).2.length ≤ 1 := by
  rw [handleSendMessage] at hr ⊢
  by_cases h : jsTrim st.input = ""
  · rw [if_pos h] at hr
    simp at hr
  · rw [if_neg h] at hr ⊢
    have hreq : r = chatRequestFor st.input := by simpa using hr
    subst hreq
    exact ⟨rfl, rfl, rfl, rfl, by simp⟩

theorem chat_post_contract_witness :
    chatRequestFor sampleChatState.input ∈ (handleSendMessage okChatFetch sampleChatState).2 ∧
    ((chatRequestFor sampleChatState.input).url = API_URL ∧
     (chatRequestFor sampleChatState.input).method = "POST" ∧
     (chatRequestFor sampleChatState.input).contentType = "application/json" ∧
     (chatRequestFor sampleChatState.input).message = sampleChatState.input ∧
     (handleSendMessage okChatFetch sampleChatState).2.length ≤ 1) :=
  ⟨by decide,
    chat_post_contract okChatFetch sampleChatState (chatRequestFor sampleChatState.input)
      (by decide)⟩

/-- C9: when the input is empty or consists only of whitespace, the handler
issues no HTTP request and leaves the whole state unchanged. -/
theorem chat_blank_input_noop (fetchChat : ChatRequest → FetchOutcome) (st : ChatState)
    (h : st.input.data.all Char.isWhitespace = true) :
    handleSendMessage fetchChat st = (st, []) := by
  have ht : jsTrim st.input = "" := by
    rw [jsTrim, trimChars_of_all_whitespace st.input.data h]
  rw [handleSendMessage, if_pos ht]

theorem chat_blank_input_noop_witness :
    blankChatState.input.data.all Char.isWhitespace = true ∧
    handleSendMessage okChatFetch blankChatState = (blankChatState, []) :=
  ⟨by decide, chat_blank_input_noop okChatFetch blankChatState (by decide)⟩

/-- C10 counterexample: the single-space input is a non-empty string, yet
the handler appends no message at all and issues no request, so it does not
append one user and one agent message. -/
theorem chat_nonempty_input_cex :
    spaceChatState.input ≠ "" ∧
    (handleSendMessage okChatFetch spaceChatState).1.messages.length =
      spaceChatState.messages.length ∧
    (handleSendMessage okChatFetch spaceChatState).2.length = 0 :=
  ⟨by decide, by decide, by decide⟩

/-- C10 amended: for every input whose trimmed form is non-empty, the
handler appends exactly one user message followed by exactly one agent
message — the backend response text when the request succeeds with an ok
response, the fixed connection-error text otherwise — and isTyping is false
when the operation completes. -/
theorem chat_send_appends_pair (fetchChat : ChatRequest → FetchOutcome) (st : ChatState)
    (h : jsTrim st.input ≠ "") :
    ∃ a : Message,
      (handleSendMessage fetchChat st).1.messages =
        st.messages ++ [{ content := st.input, isUser := true, agentName := none }, a] ∧
      a.isUser = false ∧ a.agentName = some "NakalTrade" ∧
      (∀ text, fetchChat (chatRequestFor st.input) = FetchOutcome.reply true text →
        a.content = text) ∧
      ((∀ text, fetchChat (chatRequestFor st.input) ≠ FetchOutcome.reply true text) →
        a.content = connectionErrorText) ∧
      (handleSendMessage fetchChat st).1.isTyping = false := by
  rw [handleSendMessage, if_neg h]
  cases hf : fetchChat (chatRequestFor st.input) with
  | netError =>
    refine ⟨_, rfl, rfl, rfl, ?_, fun _ => rfl, rfl⟩
    intro text ht
    simp at ht
  | reply ok text =>
    cases ok with
    | true =>
      refine ⟨_, rfl, rfl, rfl, ?_, ?_, rfl⟩
      · intro t ht
        injection ht
      · intro hall
        exact ((hall text) rfl).elim
    | false =>
      refine ⟨_, rfl, rfl, rfl, ?_, fun _ => rfl, rfl⟩
      intro t ht
      injection ht with h1 h2
      cases h1

theorem chat_send_appends_pair_witness :
    jsTrim sampleChatState.input ≠ "" ∧
    ∃ a : Message,
      (handleSendMessage okChatFetch sampleChatState).1.messages =
        sampleChatState.messages ++
          [{ content := sampleChatState.input, isUser := true, agentName := none }, a] ∧
      a.isUser = false ∧ a.agentName = some "NakalTrade" ∧
      (∀ text, okChatFetch (chatRequestFor sampleChatState.input) =
          FetchOutcome.reply true text → a.content = text) ∧
      ((∀ text, okChatFetch (chatRequestFor sampleChatState.input) ≠
          FetchOutcome.reply true text) → a.content = connectionErrorText) ∧
      (handleSendMessage okChatFetch sampleChatState).1.isTyping = false :=
  ⟨by decide, chat_send_appends_pair okChatFetch sampleChatState (by decide)⟩
